import Mathlib

/-!
Shallow embedding of the risk-inference core of the vital-scan-web repository.

Sources embedded here:
* `src/src/utils/diabetesPrediction.ts` — the rule engine `calculateDiabetesRisk`;
* `src/src/utils/modelPrediction.ts` — the orchestrator `predictDiabetesRisk`,
  `useTrainedModel`'s encoding tables, `useRuleBasedModel`, `generateFactors`,
  `generateRecommendations`;
* `src/unnamed/part_003` — the Express backend: encoding tables, `processData`
  (the DatasetProcessor two-pass fit) and the `/api/predict` inference encoding.

Modelling conventions:
* TypeScript `number` is modelled as `ℚ` (the claims under study do not depend
  on binary floating-point rounding);
* runtime string values (enum-typed fields are erased to strings at runtime)
  are modelled as `String`;
* `Math.sqrt` is not rational, so every definition that needs it is
  parameterised by a function `sqrt : ℚ → ℚ`; the only property of the real
  square root used by any theorem is `sqrt 0 = 0`;
* JavaScript template interpolation of a number into a string is `numStr`.
-/

/-- A runtime health profile as submitted by the assessment form
(`HealthData` in `src/src/pages/DiabetesAssessment.tsx`).  Enum-typed fields
are erased to strings at runtime, so they are `String` here. -/
structure HealthData where
  age : ℚ
  gender : String
  height : ℚ
  weight : ℚ
  bmi : ℚ
  familyHistory : String
  physicalActivity : String
  dietType : String
  smokingStatus : String
  alcoholIntake : String
  stressLevel : String
  hypertension : String
deriving DecidableEq

/-- A risk-factor explanation record (`RiskFactor` in
`src/src/utils/diabetesPrediction.ts`); `impact` is one of the runtime strings
"positive", "negative", "neutral". -/
structure RiskFactor where
  name : String
  impact : String
  description : String
deriving DecidableEq

/-- The rule engine's result record (`RiskResult` in
`src/src/utils/diabetesPrediction.ts`, without `modelUsed`). -/
structure RiskResult where
  riskLevel : String
  riskPercentage : ℚ
  factors : List RiskFactor
  recommendations : List String
deriving DecidableEq

/-- The orchestrator's result record (`RiskResult` in
`src/src/utils/modelPrediction.ts`, which adds `modelUsed`). -/
structure ModelRiskResult where
  riskLevel : String
  riskPercentage : ℚ
  factors : List RiskFactor
  recommendations : List String
  modelUsed : String
deriving DecidableEq

/-- JavaScript coercion of a number into a template string (`${x}`). -/
def numStr (q : ℚ) : String := toString q

/-- JavaScript `Math.round`: round half toward positive infinity. -/
def jsRound (q : ℚ) : ℤ := (q + 1/2).floor

/-- What one factor block of `calculateDiabetesRisk` contributes to the three
accumulators `riskScore`, `factors`, `recommendations`. -/
structure Contribution where
  points : ℕ
  factors : List RiskFactor
  recs : List String
deriving DecidableEq

/-- Age factor block, `diabetesPrediction.ts` lines 21–42. -/
def ageBlock (d : HealthData) : Contribution :=
  if 45 ≤ d.age then
    ⟨15, [⟨"Age Factor", "negative",
      "Age " ++ numStr d.age ++ " increases diabetes risk significantly after 45"⟩], []⟩
  else if 35 ≤ d.age then
    ⟨8, [⟨"Age Factor", "negative",
      "Age " ++ numStr d.age ++ " shows moderate increased risk"⟩], []⟩
  else
    ⟨0, [⟨"Age Factor", "positive",
      "Age " ++ numStr d.age ++ " is associated with lower diabetes risk"⟩], []⟩

/-- BMI factor block, `diabetesPrediction.ts` lines 44–74. -/
def bmiBlock (d : HealthData) : Contribution :=
  if 30 ≤ d.bmi then
    ⟨25, [⟨"BMI (Obesity)", "negative",
      "BMI of " ++ numStr d.bmi ++ " indicates obesity, a major diabetes risk factor"⟩],
      ["Work with a healthcare provider to develop a sustainable weight management plan",
       "Consider consulting with a registered dietitian for personalized nutrition guidance"]⟩
  else if 25 ≤ d.bmi then
    ⟨15, [⟨"BMI (Overweight)", "negative",
      "BMI of " ++ numStr d.bmi ++ " indicates overweight status, increasing diabetes risk"⟩],
      ["Aim for gradual weight loss through balanced diet and regular exercise"]⟩
  else if (18.5 : ℚ) ≤ d.bmi then
    ⟨0, [⟨"BMI (Healthy)", "positive",
      "BMI of " ++ numStr d.bmi ++ " is in the healthy range, reducing diabetes risk"⟩], []⟩
  else
    ⟨0, [⟨"BMI (Underweight)", "neutral",
      "BMI of " ++ numStr d.bmi ++ " is below normal range"⟩], []⟩

/-- Family-history factor block, `diabetesPrediction.ts` lines 76–91. -/
def familyHistoryBlock (d : HealthData) : Contribution :=
  if d.familyHistory = "Yes" then
    ⟨20, [⟨"Family History", "negative",
      "Family history of diabetes significantly increases your risk"⟩],
      ["Schedule regular diabetes screenings with your healthcare provider"]⟩
  else
    ⟨0, [⟨"Family History", "positive",
      "No family history of diabetes reduces your overall risk"⟩], []⟩

/-- Physical-activity factor block, `diabetesPrediction.ts` lines 93–117. -/
def activityBlock (d : HealthData) : Contribution :=
  if d.physicalActivity = "Low" then
    ⟨15, [⟨"Physical Activity", "negative",
      "Low physical activity increases diabetes risk"⟩],
      ["Aim for at least 150 minutes of moderate-intensity exercise per week",
       "Start with short walks and gradually increase activity level"]⟩
  else if d.physicalActivity = "Moderate" then
    ⟨5, [⟨"Physical Activity", "neutral",
      "Moderate activity level provides some protection against diabetes"⟩],
      ["Consider increasing to high activity level for maximum health benefits"]⟩
  else
    ⟨0, [⟨"Physical Activity", "positive",
      "High physical activity significantly reduces diabetes risk"⟩], []⟩

/-- Diet factor block, `diabetesPrediction.ts` lines 119–143. -/
def dietBlock (d : HealthData) : Contribution :=
  if d.dietType = "Unhealthy" then
    ⟨15, [⟨"Diet Quality", "negative",
      "Unhealthy diet with high sugar and processed foods increases risk"⟩],
      ["Focus on whole foods: vegetables, lean proteins, whole grains, and healthy fats",
       "Limit sugary drinks, processed foods, and refined carbohydrates"]⟩
  else if d.dietType = "Balanced" then
    ⟨3, [⟨"Diet Quality", "neutral",
      "Balanced diet provides moderate protection against diabetes"⟩],
      ["Continue maintaining a balanced diet with plenty of vegetables and whole grains"]⟩
  else
    ⟨0, [⟨"Diet Quality", "positive",
      "Very healthy diet significantly reduces diabetes risk"⟩], []⟩

/-- Smoking factor block, `diabetesPrediction.ts` lines 145–167. -/
def smokingBlock (d : HealthData) : Contribution :=
  if d.smokingStatus = "Smoker" then
    ⟨12, [⟨"Smoking Status", "negative",
      "Current smoking increases diabetes risk and complications"⟩],
      ["Consider smoking cessation programs - quitting reduces diabetes risk within years"]⟩
  else if d.smokingStatus = "Former Smoker" then
    ⟨3, [⟨"Smoking Status", "neutral",
      "Former smoking status has reduced impact on current diabetes risk"⟩], []⟩
  else
    ⟨0, [⟨"Smoking Status", "positive",
      "Non-smoking status reduces diabetes and cardiovascular risks"⟩], []⟩

/-- Alcohol factor block, `diabetesPrediction.ts` lines 169–191. -/
def alcoholBlock (d : HealthData) : Contribution :=
  if d.alcoholIntake = "Yes" then
    ⟨8, [⟨"Alcohol Consumption", "negative",
      "Regular alcohol consumption can affect blood sugar control"⟩],
      ["Consider reducing alcohol intake to moderate levels or eliminating entirely"]⟩
  else if d.alcoholIntake = "Occasional" then
    ⟨2, [⟨"Alcohol Consumption", "neutral",
      "Occasional alcohol consumption has minimal impact on diabetes risk"⟩], []⟩
  else
    ⟨0, [⟨"Alcohol Consumption", "positive",
      "No alcohol consumption reduces diabetes risk factors"⟩], []⟩

/-- Stress factor block, `diabetesPrediction.ts` lines 193–217. -/
def stressBlock (d : HealthData) : Contribution :=
  if d.stressLevel = "High" then
    ⟨10, [⟨"Stress Level", "negative",
      "High chronic stress can affect blood sugar regulation"⟩],
      ["Practice stress management techniques like meditation, yoga, or deep breathing",
       "Consider counseling or therapy if stress feels overwhelming"]⟩
  else if d.stressLevel = "Medium" then
    ⟨4, [⟨"Stress Level", "neutral",
      "Medium stress levels have moderate impact on diabetes risk"⟩],
      ["Implement regular stress-reduction activities in your routine"]⟩
  else
    ⟨0, [⟨"Stress Level", "positive",
      "Low stress levels support healthy blood sugar regulation"⟩], []⟩

/-- Hypertension factor block, `diabetesPrediction.ts` lines 219–235. -/
def hypertensionBlock (d : HealthData) : Contribution :=
  if d.hypertension = "Yes" then
    ⟨15, [⟨"Hypertension", "negative",
      "High blood pressure significantly increases diabetes risk"⟩],
      ["Work closely with your healthcare provider to manage blood pressure",
       "Follow a DASH diet (low sodium, high potassium) for blood pressure control"]⟩
  else
    ⟨0, [⟨"Blood Pressure", "positive",
      "Normal blood pressure reduces diabetes and cardiovascular risks"⟩], []⟩

/-- Gender factor block, `diabetesPrediction.ts` lines 237–240: points only,
no RiskFactor record is pushed. -/
def genderBlock (d : HealthData) : Contribution :=
  if d.gender = "Male" then ⟨2, [], []⟩ else ⟨0, [], []⟩

/-- The ten factor blocks of `calculateDiabetesRisk`, in the order the source
evaluates them (lines 21–240). -/
def ruleBlocks (d : HealthData) : List Contribution :=
  [ageBlock d, bmiBlock d, familyHistoryBlock d, activityBlock d, dietBlock d,
   smokingBlock d, alcoholBlock d, stressBlock d, hypertensionBlock d, genderBlock d]

/-- The accumulated `riskScore` of `calculateDiabetesRisk` (the "raw score"):
the sum of the ten blocks' point contributions, in source order. -/
def riskScore (d : HealthData) : ℕ :=
  ((ruleBlocks d).map Contribution.points).sum

/-- The rule engine `calculateDiabetesRisk`, `diabetesPrediction.ts`
lines 16–272.  The three accumulators are the in-order concatenations of the
blocks' contributions; lines 242–252 prepend/append the tier-dependent
recommendations, lines 254–264 derive the percentage and the tier. -/
def calculateDiabetesRisk (d : HealthData) : RiskResult :=
  let s := riskScore d
  let factors := ((ruleBlocks d).map Contribution.factors).flatten
  let recs := ((ruleBlocks d).map Contribution.recs).flatten
  { riskLevel := if s ≤ 30 then "Low" else if s ≤ 60 then "Medium" else "High"
    riskPercentage := ((min (jsRound ((s : ℚ) / 120 * 100)) 95 : ℤ) : ℚ)
    factors := factors
    recommendations :=
      if s ≤ 30 then
        "Maintain your current healthy lifestyle habits" ::
          (recs ++ ["Continue regular health check-ups every 2-3 years"])
      else if s ≤ 60 then
        "Schedule a consultation with your healthcare provider within 6 months" ::
          (recs ++ ["Consider annual diabetes screening"])
      else
        "Schedule an urgent consultation with your healthcare provider" ::
          (recs ++ ["Request comprehensive diabetes screening including HbA1c and fasting glucose tests"]) }

/-- The §8 example profile of the spec: every risk-increasing factor maxed. -/
def maxedProfile : HealthData :=
  { age := 50
    gender := "Male"
    height := 170
    weight := 90
    bmi := 32
    familyHistory := "Yes"
    physicalActivity := "Low"
    dietType := "Unhealthy"
    smokingStatus := "Smoker"
    alcoholIntake := "Yes"
    stressLevel := "High"
    hypertension := "Yes" }

/-- Batteries' `Rat.floor` agrees with Mathlib's floor on `ℚ`. -/
lemma ratFloor_eq_intFloor (q : ℚ) : q.floor = ⌊q⌋ :=
  (Rat.floor_def' q).trans Rat.floor_def.symm

/-- Closed form of the percentage rounding: for a natural raw score `s`,
`Math.round(s/120*100)` is the natural division `(5*s+3)/6`. -/
lemma jsRound_score (s : ℕ) : jsRound ((s : ℚ) / 120 * 100) = (((5 * s + 3) / 6 : ℕ) : ℤ) := by
  have h1 : (s : ℚ) / 120 * 100 + 1/2 = ((10 * s + 6 : ℕ) : ℚ) / ((12 : ℕ) : ℚ) := by
    push_cast
    ring
  rw [jsRound, ratFloor_eq_intFloor, h1, Rat.floor_natCast_div_natCast]
  norm_cast
  omega

/-- Closed form of the rule engine's `riskPercentage` field in natural-number
arithmetic, so that concrete profiles can be evaluated by `decide`. -/
lemma riskPercentage_closed (d : HealthData) :
    (calculateDiabetesRisk d).riskPercentage = ((min ((5 * riskScore d + 3) / 6) 95 : ℕ) : ℚ) := by
  show ((min (jsRound ((riskScore d : ℚ) / 120 * 100)) 95 : ℤ) : ℚ) = _
  rw [jsRound_score, show ((95 : ℤ) = ((95 : ℕ) : ℤ)) from rfl, ← Nat.cast_min]
  norm_cast


/-- The factor generator of the trained-model path, `modelPrediction.ts`
lines 148–225 (`generateFactors`): unlike the rule engine it pushes no record
for underweight BMI, absent family history, moderate activity, normal blood
pressure, and never pushes diet, smoking, alcohol or stress records. -/
def generateFactors (d : HealthData) : List RiskFactor :=
  (if 45 ≤ d.age then
    [⟨"Age Factor", "negative",
      "Age " ++ numStr d.age ++ " increases diabetes risk significantly after 45"⟩]
   else if 35 ≤ d.age then
    [⟨"Age Factor", "negative",
      "Age " ++ numStr d.age ++ " shows moderate increased risk"⟩]
   else
    [⟨"Age Factor", "positive",
      "Age " ++ numStr d.age ++ " is associated with lower diabetes risk"⟩]) ++
  (if 30 ≤ d.bmi then
    [⟨"BMI (Obesity)", "negative",
      "BMI of " ++ numStr d.bmi ++ " indicates obesity, a major diabetes risk factor"⟩]
   else if 25 ≤ d.bmi then
    [⟨"BMI (Overweight)", "negative",
      "BMI of " ++ numStr d.bmi ++ " indicates overweight status, increasing diabetes risk"⟩]
   else if (18.5 : ℚ) ≤ d.bmi then
    [⟨"BMI (Healthy)", "positive",
      "BMI of " ++ numStr d.bmi ++ " is in the healthy range, reducing diabetes risk"⟩]
   else []) ++
  (if d.familyHistory = "Yes" then
    [⟨"Family History", "negative",
      "Family history of diabetes significantly increases your risk"⟩]
   else []) ++
  (if d.physicalActivity = "Low" then
    [⟨"Physical Activity", "negative",
      "Low physical activity increases diabetes risk"⟩]
   else if d.physicalActivity = "High" then
    [⟨"Physical Activity", "positive",
      "High physical activity significantly reduces diabetes risk"⟩]
   else []) ++
  (if d.hypertension = "Yes" then
    [⟨"Hypertension", "negative",
      "High blood pressure significantly increases diabetes risk"⟩]
   else [])

/-- The recommendation generator of the trained-model path,
`modelPrediction.ts` lines 227–264 (`generateRecommendations`). -/
def generateRecommendations (d : HealthData) (riskLevel : String) : List String :=
  (if riskLevel = "Low" then
    ["Maintain your current healthy lifestyle habits",
     "Continue regular health check-ups every 2-3 years"]
   else if riskLevel = "Medium" then
    ["Schedule a consultation with your healthcare provider within 6 months",
     "Consider annual diabetes screening"]
   else
    ["Schedule an urgent consultation with your healthcare provider",
     "Request comprehensive diabetes screening including HbA1c and fasting glucose tests"]) ++
  (if 25 ≤ d.bmi then
    ["Work with a healthcare provider to develop a sustainable weight management plan"]
   else []) ++
  (if d.physicalActivity = "Low" then
    ["Aim for at least 150 minutes of moderate-intensity exercise per week"]
   else []) ++
  (if d.dietType = "Unhealthy" then
    ["Focus on whole foods: vegetables, lean proteins, whole grains, and healthy fats"]
   else []) ++
  (if d.smokingStatus = "Smoker" then
    ["Consider smoking cessation programs - quitting reduces diabetes risk within years"]
   else []) ++
  (if d.stressLevel = "High" then
    ["Practice stress management techniques like meditation, yoga, or deep breathing"]
   else [])

/-- The fallback branch of the orchestrator, `modelPrediction.ts`
lines 133–146 (`useRuleBasedModel`): the rule engine's complete result with
the recommendation list prefixed by a model-basis notice and
`modelUsed = "rule-based"`. -/
def useRuleBasedModel (d : HealthData) : ModelRiskResult :=
  let result := calculateDiabetesRisk d
  { riskLevel := result.riskLevel
    riskPercentage := result.riskPercentage
    factors := result.factors
    recommendations := "Prediction made using rule-based algorithm" :: result.recommendations
    modelUsed := "rule-based" }

/-- The body the remote scoring service returns on success (`response.json()`
in `modelPrediction.ts` line 36): arbitrary runtime values, no validation. -/
structure RemoteResponse where
  riskLevel : String
  riskPercentage : ℚ
deriving DecidableEq

/-- Outcome of the bounded remote call issued by `predictDiabetesRisk`
(`modelPrediction.ts` lines 21–33): a successful response with an `ok`
status, a response with a non-success status (`response.ok` false), the
5-second abort firing, or `fetch` throwing a network error. -/
inductive RemoteOutcome where
  | ok (resp : RemoteResponse)
  | httpError
  | timeout
  | networkError
deriving DecidableEq

/-- The orchestrator `predictDiabetesRisk`, `modelPrediction.ts` lines 18–51,
with the remote call's outcome made explicit.  An `ok` response is copied
verbatim into the result (lines 35–44); any other outcome falls through the
`try`/`catch` to `useRuleBasedModel` (lines 45–50), so no remote failure is
ever surfaced to the caller as an error. -/
def predictDiabetesRisk (d : HealthData) (remote : RemoteOutcome) : ModelRiskResult :=
  match remote with
  | .ok resp =>
      { riskLevel := resp.riskLevel
        riskPercentage := resp.riskPercentage
        factors := generateFactors d
        recommendations := generateRecommendations d resp.riskLevel
        modelUsed := "trained" }
  | .httpError => useRuleBasedModel d
  | .timeout => useRuleBasedModel d
  | .networkError => useRuleBasedModel d

/-- Form-vocabulary → dataset-vocabulary remapping for diet
(`formToCsvMap.dietType`, identical in `modelPrediction.ts` lines 56–60 and
`part_003` lines 263–267); unmapped values pass through (`|| x`). -/
def formToCsvDiet (s : String) : String :=
  if s = "Very Healthy" then "Vegan"
  else if s = "Balanced" then "Vegetarian"
  else if s = "Unhealthy" then "Non-Vegetarian"
  else s

/-- Form → dataset remapping for smoking (`formToCsvMap.smokingStatus`). -/
def formToCsvSmoking (s : String) : String :=
  if s = "Smoker" then "Current"
  else if s = "Former Smoker" then "Former"
  else if s = "Non-Smoker" then "Never"
  else s

/-- Form → dataset remapping for alcohol (`formToCsvMap.alcoholIntake`).
Note that no remapping at all exists for `physicalActivity`. -/
def formToCsvAlcohol (s : String) : String :=
  if s = "Yes" then "High"
  else if s = "Occasional" then "Moderate"
  else if s = "No" then "None"
  else s

/-- Backend gender code table (`part_003` line 49, `genderMap` with the
`|| 0` default applied at every use site). -/
def serverGenderCode (s : String) : ℚ :=
  if s = "Male" then 1 else if s = "Female" then 0 else if s = "Other" then (0.5 : ℚ) else 0

/-- Backend Yes/No code table (`part_003` line 50, `binaryMap` with the
`|| 0` default). -/
def serverBinaryCode (s : String) : ℚ :=
  if s = "Yes" then 1 else if s = "No" then 0 else 0

/-- Backend physical-activity code table (`part_003` line 51,
`activityMap = Low 0, Medium 1, High 2` with the `|| 0` default).  This is
the table used both for training and for the live `/api/predict` inference;
note it has no entry for the form vocabulary value "Moderate". -/
def serverActivityCode (s : String) : ℚ :=
  if s = "Low" then 0 else if s = "Medium" then 1 else if s = "High" then 2 else 0

/-- Backend diet code table (`part_003` line 52). -/
def serverDietCode (s : String) : ℚ :=
  if s = "Non-Vegetarian" then 0 else if s = "Vegetarian" then 1
  else if s = "Vegan" then 2 else 0

/-- Backend smoking code table (`part_003` line 53). -/
def serverSmokingCode (s : String) : ℚ :=
  if s = "Never" then 0 else if s = "Current" then 2 else if s = "Former" then 1 else 0

/-- Backend alcohol code table (`part_003` line 54). -/
def serverAlcoholCode (s : String) : ℚ :=
  if s = "None" then 0 else if s = "Moderate" then 1 else if s = "High" then 2 else 0

/-- Backend stress code table (`part_003` line 55). -/
def serverStressCode (s : String) : ℚ :=
  if s = "Low" then 0 else if s = "Medium" then 1 else if s = "High" then 2 else 0

/-- Client-side physical-activity code table used by `useTrainedModel`
(`modelPrediction.ts` line 84, `activityMap = Low 0, Moderate 1, High 2`
with the `?? 0` default); the identical table appears in the browser
`DatasetProcessor` (`datasetProcessor.ts` line 45). -/
def clientActivityCode (s : String) : ℚ :=
  if s = "Low" then 0 else if s = "Moderate" then 1 else if s = "High" then 2 else 0

/-- The categorical slots of the `/api/predict` feature vector
(`part_003` lines 293–309, positions 1 and 3–9): the profile's raw field
values after the `formToCsvMap` remapping (which does not touch
`physicalActivity`), pushed through the backend code tables.  The two
normalized continuous entries and the five trailing zero constants are
omitted here. -/
def serverCatCodes (d : HealthData) : List ℚ :=
  [serverGenderCode d.gender,
   serverBinaryCode d.familyHistory,
   serverActivityCode d.physicalActivity,
   serverDietCode (formToCsvDiet d.dietType),
   serverSmokingCode (formToCsvSmoking d.smokingStatus),
   serverAlcoholCode (formToCsvAlcohol d.alcoholIntake),
   serverStressCode d.stressLevel,
   serverBinaryCode d.hypertension]

/-- One parsed CSV row as the backend sees it in `processData`
(`part_003` lines 70–98).  A numeric field is `none` when `parseFloat`
returns `NaN`; a categorical field is `none` when it is missing or the empty
string (both are falsy in the `!row.X` checks). -/
structure CsvRow where
  age : Option ℚ
  bmi : Option ℚ
  chol : Option ℚ
  fastingSugar : Option ℚ
  hba1c : Option ℚ
  heartRate : Option ℚ
  whr : Option ℚ
  gender : Option String
  familyHistory : Option String
  physicalActivity : Option String
  dietType : Option String
  smokingStatus : Option String
  alcoholIntake : Option String
  stressLevel : Option String
  hypertension : Option String
  diabetes : Option String
deriving DecidableEq

/-- The row-validity filter both passes of `processData` apply
(`part_003` lines 79–89 and, verbatim again, lines 126–134): `Age` and `BMI`
parse and are strictly positive, and all nine categorical fields are
present. -/
def validRow (r : CsvRow) : Bool :=
  (match r.age with | some a => decide (0 < a) | none => false) &&
  (match r.bmi with | some b => decide (0 < b) | none => false) &&
  r.gender.isSome && r.familyHistory.isSome && r.physicalActivity.isSome &&
  r.dietType.isSome && r.smokingStatus.isSome && r.alcoholIntake.isSome &&
  r.stressLevel.isSome && r.hypertension.isSome && r.diabetes.isSome

/-- Pass 1 of `processData`: the ages collected from the valid rows, in
order (`part_003` line 91). -/
def pass1Ages : List CsvRow → List ℚ
  | [] => []
  | r :: rs => if validRow r then r.age.getD 0 :: pass1Ages rs else pass1Ages rs

/-- Pass 1 of `processData`: the BMIs collected from the valid rows, in
order (`part_003` line 92). -/
def pass1Bmis : List CsvRow → List ℚ
  | [] => []
  | r :: rs => if validRow r then r.bmi.getD 0 :: pass1Bmis rs else pass1Bmis rs

/-- Pass 1 of `processData`: the samples of one optional clinical field,
collected from the valid rows where the field parses
(`part_003` lines 93–97). -/
def pass1Samples (f : CsvRow → Option ℚ) : List CsvRow → List ℚ
  | [] => []
  | r :: rs =>
      if validRow r then
        match f r with
        | some v => v :: pass1Samples f rs
        | none => pass1Samples f rs
      else pass1Samples f rs

/-- Arithmetic mean, as the backend computes it (`reduce(...)/length`). -/
def listMean (xs : List ℚ) : ℚ := xs.sum / xs.length

/-- Population variance, as the backend computes it before taking the square
root (`reduce((sum, val) => sum + pow(val - mean, 2), 0)/length`). -/
def listVar (xs : List ℚ) : ℚ :=
  (xs.map (fun v => (v - listMean xs) ^ 2)).sum / xs.length

/-- The normalization statistics `processData` computes
(`part_003` lines 100–114).  Every `Std` field holds the standard deviation
`sqrt (variance)`; a clinical field with no samples gets mean 0 and std 1. -/
structure NormStats where
  ageMean : ℚ
  ageStd : ℚ
  bmiMean : ℚ
  bmiStd : ℚ
  cholMean : ℚ
  cholStd : ℚ
  fsMean : ℚ
  fsStd : ℚ
  hba1cMean : ℚ
  hba1cStd : ℚ
  hrMean : ℚ
  hrStd : ℚ
  whrMean : ℚ
  whrStd : ℚ
deriving DecidableEq

/-- The statistics computation of `processData`, `part_003` lines 100–114.
`ageStd` and `bmiStd` are the square roots of the variances with no guard of
any kind; each optional clinical field falls back to mean 0 / std 1 only
when its sample list is empty (`xs.length > 0 ? ... : 1`). -/
def computeStats (sq : ℚ → ℚ) (rows : List CsvRow) : NormStats :=
  let ages := pass1Ages rows
  let bmis := pass1Bmis rows
  let chols := pass1Samples CsvRow.chol rows
  let fss := pass1Samples CsvRow.fastingSugar rows
  let hba1cs := pass1Samples CsvRow.hba1c rows
  let hrs := pass1Samples CsvRow.heartRate rows
  let whrs := pass1Samples CsvRow.whr rows
  { ageMean := listMean ages
    ageStd := sq (listVar ages)
    bmiMean := listMean bmis
    bmiStd := sq (listVar bmis)
    cholMean := if 0 < chols.length then listMean chols else 0
    cholStd := if 0 < chols.length then sq (listVar chols) else 1
    fsMean := if 0 < fss.length then listMean fss else 0
    fsStd := if 0 < fss.length then sq (listVar fss) else 1
    hba1cMean := if 0 < hba1cs.length then listMean hba1cs else 0
    hba1cStd := if 0 < hba1cs.length then sq (listVar hba1cs) else 1
    hrMean := if 0 < hrs.length then listMean hrs else 0
    hrStd := if 0 < hrs.length then sq (listVar hrs) else 1
    whrMean := if 0 < whrs.length then listMean whrs else 0
    whrStd := if 0 < whrs.length then sq (listVar whrs) else 1 }

/-- Normalization of one optional clinical value in pass 2
(`part_003` lines 138–142): `(v - mean)/std` when the value parses, else 0. -/
def normOpt (v : Option ℚ) (mean std : ℚ) : ℚ :=
  match v with
  | some x => (x - mean) / std
  | none => 0

/-- The feature vector pass 2 emits for one valid row
(`part_003` lines 136–160): normalized age and BMI, the eight categorical
codes, then the five normalized clinical fields. -/
def encodeRow (st : NormStats) (r : CsvRow) : List ℚ :=
  [(r.age.getD 0 - st.ageMean) / st.ageStd,
   serverGenderCode (r.gender.getD ""),
   (r.bmi.getD 0 - st.bmiMean) / st.bmiStd,
   serverBinaryCode (r.familyHistory.getD ""),
   serverActivityCode (r.physicalActivity.getD ""),
   serverDietCode (r.dietType.getD ""),
   serverSmokingCode (r.smokingStatus.getD ""),
   serverAlcoholCode (r.alcoholIntake.getD ""),
   serverStressCode (r.stressLevel.getD ""),
   serverBinaryCode (r.hypertension.getD ""),
   normOpt r.chol st.cholMean st.cholStd,
   normOpt r.fastingSugar st.fsMean st.fsStd,
   normOpt r.hba1c st.hba1cMean st.hba1cStd,
   normOpt r.heartRate st.hrMean st.hrStd,
   normOpt r.whr st.whrMean st.whrStd]

/-- The label pass 2 emits for one valid row (`part_003` line 162):
`binaryMap[row.Diabetes] || 0`. -/
def rowLabel (r : CsvRow) : ℚ := serverBinaryCode (r.diabetes.getD "")

/-- Pass 2 of `processData` (`part_003` lines 117–166): re-walk the rows
with the same validity filter and emit one feature vector and one label per
valid row. -/
def pass2 (st : NormStats) : List CsvRow → List (List ℚ) × List ℚ
  | [] => ([], [])
  | r :: rs =>
      let rest := pass2 st rs
      if validRow r then (encodeRow st r :: rest.1, rowLabel r :: rest.2) else rest

/-- What `processData` returns and reports: feature matrix, label vector,
statistics, and the logged counts (`part_003` lines 168 and 172 —
`Processed ${features.length} valid records out of ${dataset.length}`). -/
structure ProcessOut where
  features : List (List ℚ)
  labels : List ℚ
  stats : NormStats
  reportedValid : ℕ
  reportedTotal : ℕ
deriving DecidableEq

/-- The backend DatasetProcessor fit, `processData` in `part_003`
lines 58–173, parameterised by the square-root function. -/
def processData (sq : ℚ → ℚ) (rows : List CsvRow) : ProcessOut :=
  let st := computeStats sq rows
  let fl := pass2 st rows
  { features := fl.1
    labels := fl.2
    stats := st
    reportedValid := fl.1.length
    reportedTotal := rows.length }

lemma pass2_eq (st : NormStats) (rows : List CsvRow) :
    pass2 st rows =
      ((rows.filter validRow).map (encodeRow st), (rows.filter validRow).map rowLabel) := by
  induction rows with
  | nil => rfl
  | cons r rs ih =>
      by_cases h : validRow r <;> simp [pass2, List.filter_cons, h, ih]

lemma pass1Ages_eq (rows : List CsvRow) :
    pass1Ages rows = (rows.filter validRow).map (fun r => r.age.getD 0) := by
  induction rows with
  | nil => rfl
  | cons r rs ih =>
      by_cases h : validRow r <;> simp [pass1Ages, List.filter_cons, h, ih]

lemma pass1Bmis_eq (rows : List CsvRow) :
    pass1Bmis rows = (rows.filter validRow).map (fun r => r.bmi.getD 0) := by
  induction rows with
  | nil => rfl
  | cons r rs ih =>
      by_cases h : validRow r <;> simp [pass1Bmis, List.filter_cons, h, ih]

lemma pass1Samples_eq (f : CsvRow → Option ℚ) (rows : List CsvRow) :
    pass1Samples f rows = (rows.filter validRow).filterMap f := by
  induction rows with
  | nil => rfl
  | cons r rs ih =>
      by_cases h : validRow r
      · cases hf : f r <;> simp [pass1Samples, List.filter_cons, h, hf, ih, List.filterMap_cons]
      · simp [pass1Samples, List.filter_cons, h, ih]

/-- Concrete profile whose raw score is exactly 30 (BMI 26 → 15 points,
low activity → 15 points). -/
def profile30 : HealthData :=
  { age := 25
    gender := "Female"
    height := 165
    weight := 70
    bmi := 26
    familyHistory := "No"
    physicalActivity := "Low"
    dietType := "Very Healthy"
    smokingStatus := "Non-Smoker"
    alcoholIntake := "No"
    stressLevel := "Low"
    hypertension := "No" }

/-- Concrete profile whose raw score is exactly 31 (age 38 → 8, BMI 26 → 15,
alcohol Yes → 8). -/
def profile31 : HealthData :=
  { age := 38
    gender := "Female"
    height := 165
    weight := 70
    bmi := 26
    familyHistory := "No"
    physicalActivity := "High"
    dietType := "Very Healthy"
    smokingStatus := "Non-Smoker"
    alcoholIntake := "Yes"
    stressLevel := "Low"
    hypertension := "No" }

/-- Concrete profile whose raw score is exactly 60 (BMI 31 → 25, family
history → 20, low activity → 15). -/
def profile60 : HealthData :=
  { age := 20
    gender := "Female"
    height := 165
    weight := 85
    bmi := 31
    familyHistory := "Yes"
    physicalActivity := "Low"
    dietType := "Very Healthy"
    smokingStatus := "Non-Smoker"
    alcoholIntake := "No"
    stressLevel := "Low"
    hypertension := "No" }

/-- Concrete profile whose raw score is exactly 61 (BMI 31 → 25, family
history → 20, smoker → 12, occasional alcohol → 2, male → 2). -/
def profile61 : HealthData :=
  { age := 20
    gender := "Male"
    height := 175
    weight := 95
    bmi := 31
    familyHistory := "Yes"
    physicalActivity := "High"
    dietType := "Very Healthy"
    smokingStatus := "Smoker"
    alcoholIntake := "Occasional"
    stressLevel := "Low"
    hypertension := "No" }

/-- Concrete profile reporting moderate physical activity. -/
def moderateActProfile : HealthData :=
  { age := 40
    gender := "Male"
    height := 175
    weight := 83
    bmi := 27
    familyHistory := "No"
    physicalActivity := "Moderate"
    dietType := "Balanced"
    smokingStatus := "Non-Smoker"
    alcoholIntake := "No"
    stressLevel := "Medium"
    hypertension := "No" }

/-- The same profile as `moderateActProfile` except for low physical
activity. -/
def lowActProfile : HealthData :=
  { moderateActProfile with physicalActivity := "Low" }

/-- A parseable CSV row: age 50, BMI 20, no clinical fields, all categorical
fields present. -/
def rowA : CsvRow :=
  { age := some 50
    bmi := some 20
    chol := none
    fastingSugar := none
    hba1c := none
    heartRate := none
    whr := none
    gender := some "Male"
    familyHistory := some "No"
    physicalActivity := some "Medium"
    dietType := some "Vegetarian"
    smokingStatus := some "Never"
    alcoholIntake := some "None"
    stressLevel := some "Low"
    hypertension := some "No"
    diabetes := some "No" }

/-- A second valid row with the same age as `rowA` but a different BMI. -/
def rowB : CsvRow :=
  { rowA with bmi := some 30, diabetes := some "Yes" }

/-- A two-row dataset in which every valid row has the same age, so the
computed age standard deviation is zero. -/
def constAgeRows : List CsvRow := [rowA, rowB]

lemma riskLevel_def (d : HealthData) :
    (calculateDiabetesRisk d).riskLevel =
      if riskScore d ≤ 30 then "Low" else if riskScore d ≤ 60 then "Medium" else "High" := rfl

lemma factors_def (d : HealthData) :
    (calculateDiabetesRisk d).factors = ((ruleBlocks d).map Contribution.factors).flatten := rfl

/-- C1 counterexample: the spec's maxed profile (age 50 ≥ 45, BMI 32 ≥ 30,
and every other risk-increasing value) satisfies all ten maxed conditions,
yet its raw score is 137, not the claimed 120. -/
theorem c1_maxed_profile_score_not_120 :
    (45 ≤ maxedProfile.age ∧ 30 ≤ maxedProfile.bmi ∧
     maxedProfile.familyHistory = "Yes" ∧ maxedProfile.physicalActivity = "Low" ∧
     maxedProfile.dietType = "Unhealthy" ∧ maxedProfile.smokingStatus = "Smoker" ∧
     maxedProfile.alcoholIntake = "Yes" ∧ maxedProfile.stressLevel = "High" ∧
     maxedProfile.hypertension = "Yes" ∧ maxedProfile.gender = "Male") ∧
    riskScore maxedProfile ≠ 120 ∧ riskScore maxedProfile = 137 := by
  refine ⟨by decide, by decide, by decide⟩

/-- C1 (amended): every profile with all ten risk-increasing factors maxed
has raw score 137 (15+25+20+15+15+12+8+10+15+2), risk percentage 95 (the
cap), and tier High. -/
theorem c1_maxed_profile_behavior (d : HealthData)
    (h1 : 45 ≤ d.age) (h2 : 30 ≤ d.bmi)
    (h3 : d.familyHistory = "Yes") (h4 : d.physicalActivity = "Low")
    (h5 : d.dietType = "Unhealthy") (h6 : d.smokingStatus = "Smoker")
    (h7 : d.alcoholIntake = "Yes") (h8 : d.stressLevel = "High")
    (h9 : d.hypertension = "Yes") (h10 : d.gender = "Male") :
    riskScore d = 137 ∧
    (calculateDiabetesRisk d).riskPercentage = 95 ∧
    (calculateDiabetesRisk d).riskLevel = "High" := by
  have hs : riskScore d = 137 := by
    simp [riskScore, ruleBlocks, ageBlock, bmiBlock, familyHistoryBlock, activityBlock,
      dietBlock, smokingBlock, alcoholBlock, stressBlock, hypertensionBlock, genderBlock,
      h1, h2, h3, h4, h5, h6, h7, h8, h9, h10]
  refine ⟨hs, ?_, ?_⟩
  · rw [riskPercentage_closed, hs]
    norm_num
  · rw [riskLevel_def, hs]
    norm_num

/-- C1 witness: the amended theorem applied to the concrete maxed profile. -/
theorem c1_maxed_profile_behavior_witness :
    riskScore maxedProfile = 137 ∧
    (calculateDiabetesRisk maxedProfile).riskPercentage = 95 ∧
    (calculateDiabetesRisk maxedProfile).riskLevel = "High" :=
  c1_maxed_profile_behavior maxedProfile (by decide) (by decide) (by decide) (by decide)
    (by decide) (by decide) (by decide) (by decide) (by decide) (by decide)

/-- C2: for every profile the tier is Low iff the raw score is at most 30,
Medium iff it is strictly between 30 and 60 inclusive, and High iff it
exceeds 60; concrete profiles with raw scores 30, 31, 60, 61 land in
Low, Medium, Medium, High respectively. -/
theorem c2_tier_thresholds :
    (∀ d : HealthData,
      ((calculateDiabetesRisk d).riskLevel = "Low" ↔ riskScore d ≤ 30) ∧
      ((calculateDiabetesRisk d).riskLevel = "Medium" ↔ 30 < riskScore d ∧ riskScore d ≤ 60) ∧
      ((calculateDiabetesRisk d).riskLevel = "High" ↔ 60 < riskScore d)) ∧
    riskScore profile30 = 30 ∧ (calculateDiabetesRisk profile30).riskLevel = "Low" ∧
    riskScore profile31 = 31 ∧ (calculateDiabetesRisk profile31).riskLevel = "Medium" ∧
    riskScore profile60 = 60 ∧ (calculateDiabetesRisk profile60).riskLevel = "Medium" ∧
    riskScore profile61 = 61 ∧ (calculateDiabetesRisk profile61).riskLevel = "High" := by
  refine ⟨fun d => ?_, by decide, by decide, by decide, by decide, by decide, by decide,
    by decide, by decide⟩
  rw [riskLevel_def]
  split_ifs with h1 h2 <;> refine ⟨?_, ?_, ?_⟩ <;> simp <;> omega

/-- C3: for every profile the reported percentage is exactly
`min(round(rawScore/120*100), 95)` and therefore never exceeds 95. -/
theorem c3_percentage_formula_and_cap (d : HealthData) :
    (calculateDiabetesRisk d).riskPercentage =
      ((min (jsRound ((riskScore d : ℚ) / 120 * 100)) 95 : ℤ) : ℚ) ∧
    (calculateDiabetesRisk d).riskPercentage ≤ 95 := by
  refine ⟨rfl, ?_⟩
  rw [riskPercentage_closed]
  have h : (min ((5 * riskScore d + 3) / 6) 95 : ℕ) ≤ 95 := min_le_right _ _
  exact_mod_cast h

/-- C4: the training-side code table (`part_003`) maps "Medium" to 1 and has
no entry for the profile vocabulary value "Moderate", so the live inference
path encodes a profile reporting "Moderate" as code 0 — indistinguishable
from "Low" — while the client-side inference table maps "Moderate" to 1:
the two code tables disagree and "Moderate" does not encode to 1 on the
serving path. -/
theorem c4_activity_encoding_divergence :
    serverActivityCode "Moderate" = 0 ∧
    serverActivityCode "Low" = 0 ∧
    serverActivityCode "Medium" = 1 ∧
    clientActivityCode "Moderate" = 1 ∧
    serverCatCodes moderateActProfile = serverCatCodes lowActProfile ∧
    moderateActProfile.physicalActivity ≠ lowActProfile.physicalActivity := by
  refine ⟨by decide, by decide, by decide, by decide, by decide, by decide⟩

/-- C5: every remote failure outcome (timeout, network error, non-success
response) makes the orchestrator return the rule engine's complete result —
same tier, percentage, and factor list as a direct rule-engine call — with
the recommendation list prefixed by the rule-based notice and
`modelUsed = "rule-based"`; the failure is absorbed, never re-raised. -/
theorem c5_remote_failure_falls_back (d : HealthData) :
    predictDiabetesRisk d RemoteOutcome.timeout = useRuleBasedModel d ∧
    predictDiabetesRisk d RemoteOutcome.networkError = useRuleBasedModel d ∧
    predictDiabetesRisk d RemoteOutcome.httpError = useRuleBasedModel d ∧
    (predictDiabetesRisk d RemoteOutcome.timeout).modelUsed = "rule-based" ∧
    (predictDiabetesRisk d RemoteOutcome.timeout).factors = (calculateDiabetesRisk d).factors ∧
    (predictDiabetesRisk d RemoteOutcome.timeout).riskLevel =
      (calculateDiabetesRisk d).riskLevel ∧
    (predictDiabetesRisk d RemoteOutcome.timeout).riskPercentage =
      (calculateDiabetesRisk d).riskPercentage ∧
    (predictDiabetesRisk d RemoteOutcome.timeout).recommendations =
      "Prediction made using rule-based algorithm" :: (calculateDiabetesRisk d).recommendations :=
  ⟨rfl, rfl, rfl, rfl, rfl, rfl, rfl, rfl⟩

/-- C6 counterexample: on a successful remote response for a concrete
profile, the trained path's factor list differs from the rule engine's
factor list for the same profile (the rule engine always reports nine
factors; `generateFactors` reports only a subset). -/
theorem c6_trained_factors_differ_from_rule_engine :
    (predictDiabetesRisk profile60 (RemoteOutcome.ok ⟨"High", 80⟩)).factors ≠
      (calculateDiabetesRisk profile60).factors := by
  decide

/-- C6 (amended): on the trained-model path the factor list is derived
solely from the raw profile by `generateFactors` — identical no matter what
probability or level the remote model returned — but it is not the rule
engine's factor list. -/
theorem c6_trained_factors_profile_derived (d : HealthData) (r1 r2 : RemoteResponse) :
    (predictDiabetesRisk d (RemoteOutcome.ok r1)).factors = generateFactors d ∧
    (predictDiabetesRisk d (RemoteOutcome.ok r1)).factors =
      (predictDiabetesRisk d (RemoteOutcome.ok r2)).factors :=
  ⟨rfl, rfl⟩

/-- C10: a successful remote response's `riskLevel` and `riskPercentage`
are copied verbatim into the result with no range check, clamping or
re-derivation — including values far outside 0–100 or the Low/Medium/High
vocabulary. -/
theorem c10_ok_response_copied_verbatim :
    (∀ (d : HealthData) (resp : RemoteResponse),
      (predictDiabetesRisk d (RemoteOutcome.ok resp)).riskLevel = resp.riskLevel ∧
      (predictDiabetesRisk d (RemoteOutcome.ok resp)).riskPercentage = resp.riskPercentage ∧
      (predictDiabetesRisk d (RemoteOutcome.ok resp)).modelUsed = "trained") ∧
    (predictDiabetesRisk maxedProfile (RemoteOutcome.ok ⟨"Banana", 250⟩)).riskLevel = "Banana" ∧
    (predictDiabetesRisk maxedProfile (RemoteOutcome.ok ⟨"Banana", 250⟩)).riskPercentage = 250 :=
  ⟨fun _ _ => ⟨rfl, rfl, rfl⟩, rfl, rfl⟩

/-- C7 counterexample: for a concrete profile the factor list has nine
records, not ten — the gender factor contributes its 2 points (Male) without
pushing any RiskFactor record. -/
theorem c7_gender_contributes_no_record :
    (calculateDiabetesRisk maxedProfile).factors.length = 9 ∧
    (calculateDiabetesRisk maxedProfile).factors.length ≠ 10 ∧
    genderBlock maxedProfile = ⟨2, [], []⟩ := by
  refine ⟨by decide, by decide, by decide⟩

/-- C7 (amended): each of the ten factors is evaluated exactly once — the
raw score is the sum of the ten blocks' fixed point values and the factor
list is the in-order concatenation of the blocks' records — and each of the
nine non-gender factors contributes exactly one record, while gender
contributes none; a record's impact is "negative" only when its factor
contributed positive points and "positive" only when it contributed zero
points (intermediate contributions are labelled "neutral"). -/
theorem c7_factor_structure (d : HealthData) :
    riskScore d =
      (ageBlock d).points + (bmiBlock d).points + (familyHistoryBlock d).points +
      (activityBlock d).points + (dietBlock d).points + (smokingBlock d).points +
      (alcoholBlock d).points + (stressBlock d).points + (hypertensionBlock d).points +
      (genderBlock d).points ∧
    (calculateDiabetesRisk d).factors =
      (ageBlock d).factors ++ (bmiBlock d).factors ++ (familyHistoryBlock d).factors ++
      (activityBlock d).factors ++ (dietBlock d).factors ++ (smokingBlock d).factors ++
      (alcoholBlock d).factors ++ (stressBlock d).factors ++ (hypertensionBlock d).factors ∧
    (ageBlock d).factors.length = 1 ∧
    (bmiBlock d).factors.length = 1 ∧
    (familyHistoryBlock d).factors.length = 1 ∧
    (activityBlock d).factors.length = 1 ∧
    (dietBlock d).factors.length = 1 ∧
    (smokingBlock d).factors.length = 1 ∧
    (alcoholBlock d).factors.length = 1 ∧
    (stressBlock d).factors.length = 1 ∧
    (hypertensionBlock d).factors.length = 1 ∧
    (genderBlock d).factors = [] ∧
    (∀ b ∈ ruleBlocks d, ∀ f ∈ b.factors,
      (f.impact = "negative" → 0 < b.points) ∧ (f.impact = "positive" → b.points = 0)) := by
  have hg : (genderBlock d).factors = [] := by
    unfold genderBlock
    split_ifs <;> rfl
  refine ⟨?_, ?_, ?_, ?_, ?_, ?_, ?_, ?_, ?_, ?_, ?_, hg, ?_⟩
  · simp [riskScore, ruleBlocks]
    ring
  · rw [factors_def]
    simp [ruleBlocks, hg, List.append_assoc]
  · unfold ageBlock
    split_ifs <;> rfl
  · unfold bmiBlock
    split_ifs <;> rfl
  · unfold familyHistoryBlock
    split_ifs <;> rfl
  · unfold activityBlock
    split_ifs <;> rfl
  · unfold dietBlock
    split_ifs <;> rfl
  · unfold smokingBlock
    split_ifs <;> rfl
  · unfold alcoholBlock
    split_ifs <;> rfl
  · unfold stressBlock
    split_ifs <;> rfl
  · unfold hypertensionBlock
    split_ifs <;> rfl
  · intro b hb f hf
    simp only [ruleBlocks, List.mem_cons, List.not_mem_nil, or_false] at hb
    rcases hb with rfl | rfl | rfl | rfl | rfl | rfl | rfl | rfl | rfl | rfl <;>
      [unfold ageBlock at hf ⊢; unfold bmiBlock at hf ⊢; unfold familyHistoryBlock at hf ⊢;
       unfold activityBlock at hf ⊢; unfold dietBlock at hf ⊢; unfold smokingBlock at hf ⊢;
       unfold alcoholBlock at hf ⊢; unfold stressBlock at hf ⊢;
       unfold hypertensionBlock at hf ⊢; unfold genderBlock at hf ⊢] <;>
      split_ifs at hf ⊢ <;> simp_all

/-- C8 counterexample: on a dataset whose valid rows all share one age, the
computed age variance is zero, yet the age divisor stays `sqrt 0 = 0` —
no substitution of 1 happens for age (instantiated here with `id` for the
square-root function, which agrees with the real square root at 0). -/
theorem c8_zero_std_not_substituted :
    listVar (pass1Ages constAgeRows) = 0 ∧
    (computeStats id constAgeRows).ageStd = 0 ∧
    (computeStats id constAgeRows).ageStd ≠ 1 := by
  have h : pass1Ages constAgeRows = [50, 50] := by decide
  have hv : listVar (pass1Ages constAgeRows) = 0 := by
    rw [h]
    simp [listVar, listMean]
  have hstd : (computeStats id constAgeRows).ageStd = 0 := by
    show id (listVar (pass1Ages constAgeRows)) = 0
    rw [hv]
    rfl
  exact ⟨hv, hstd, by rw [hstd]; norm_num⟩

/-- C8 (amended): the age and BMI divisors are the square roots of the
computed variances with no guard of any kind — a zero standard deviation is
used unchanged as the divisor — and the substitution of 1 exists only for
the five optional clinical fields, and only when a field has no parseable
sample among the valid rows. -/
theorem c8_std_substitution_policy (sq : ℚ → ℚ) (rows : List CsvRow) :
    (computeStats sq rows).ageStd = sq (listVar (pass1Ages rows)) ∧
    (computeStats sq rows).bmiStd = sq (listVar (pass1Bmis rows)) ∧
    (pass1Samples CsvRow.chol rows = [] → (computeStats sq rows).cholStd = 1) ∧
    (pass1Samples CsvRow.fastingSugar rows = [] → (computeStats sq rows).fsStd = 1) ∧
    (pass1Samples CsvRow.hba1c rows = [] → (computeStats sq rows).hba1cStd = 1) ∧
    (pass1Samples CsvRow.heartRate rows = [] → (computeStats sq rows).hrStd = 1) ∧
    (pass1Samples CsvRow.whr rows = [] → (computeStats sq rows).whrStd = 1) ∧
    (sq 0 = 0 → listVar (pass1Ages rows) = 0 → (computeStats sq rows).ageStd = 0) := by
  refine ⟨rfl, rfl, ?_, ?_, ?_, ?_, ?_, ?_⟩
  · intro h
    simp [computeStats, h]
  · intro h
    simp [computeStats, h]
  · intro h
    simp [computeStats, h]
  · intro h
    simp [computeStats, h]
  · intro h
    simp [computeStats, h]
  · intro h0 hv
    show sq (listVar (pass1Ages rows)) = 0
    rw [hv, h0]

/-- C9: the DatasetProcessor fit is the stated two-pass filter: pass 1
collects ages and BMIs from exactly the rows passing the validity filter
(numeric age and BMI strictly positive, all categorical fields present);
pass 2 applies the same filter and emits exactly one 15-entry encoded
feature vector and one binary label (`Diabetes = "Yes"` ↦ 1, otherwise 0)
per valid row; invalid rows are dropped without any error, and the reported
counts are the valid-row count and the total row count, whose difference is
the invalid-row count. -/
theorem c9_two_pass_fit (sq : ℚ → ℚ) (rows : List CsvRow) :
    (processData sq rows).features =
      (rows.filter validRow).map (encodeRow (computeStats sq rows)) ∧
    (processData sq rows).labels = (rows.filter validRow).map rowLabel ∧
    (∀ r : CsvRow, rowLabel r = if r.diabetes = some "Yes" then 1 else 0) ∧
    (processData sq rows).reportedValid = (rows.filter validRow).length ∧
    (processData sq rows).reportedTotal = rows.length ∧
    (processData sq rows).reportedTotal - (processData sq rows).reportedValid =
      (rows.filter (fun r => !validRow r)).length ∧
    pass1Ages rows = (rows.filter validRow).map (fun r => r.age.getD 0) ∧
    pass1Bmis rows = (rows.filter validRow).map (fun r => r.bmi.getD 0) ∧
    (∀ f ∈ (processData sq rows).features, f.length = 15) := by
  have hf : (processData sq rows).features =
      (rows.filter validRow).map (encodeRow (computeStats sq rows)) := by
    simp [processData, pass2_eq]
  have hl : (processData sq rows).labels = (rows.filter validRow).map rowLabel := by
    simp [processData, pass2_eq]
  have hcount : (processData sq rows).reportedValid = (rows.filter validRow).length := by
    simp [processData, pass2_eq]
  refine ⟨hf, hl, ?_, hcount, rfl, ?_, pass1Ages_eq rows, pass1Bmis_eq rows, ?_⟩
  · intro r
    rcases hd : r.diabetes with _ | s
    · simp [rowLabel, serverBinaryCode, hd]
    · simp only [rowLabel, serverBinaryCode, hd, Option.getD_some, Option.some.injEq]
      split_ifs <;> simp_all
  · have := @List.length_eq_length_filter_add _ rows validRow
    show rows.length - (processData sq rows).reportedValid = _
    rw [hcount]
    omega
  · intro f hfm
    rw [hf] at hfm
    obtain ⟨r, _, rfl⟩ := List.mem_map.1 hfm
    rfl
